import Mathlib

/-!
Shallow embedding of `src/app/main.py` (a FastAPI façade over yt_dlp).

Conventions of the embedding:
* A yt_dlp format dictionary becomes the structure `Format`; a key that may be
  absent becomes an `Option` field (`d.get(k)` returning `None` is `none`).
* The probe (`ydl.extract_info`) is an input of the handlers: `Except String Info`,
  where `.error e` models the extractor raising an exception with message `e`.
* Byte counts are integers; the float divisions `size /= 1024` of `format_size`
  are modelled exactly as a fraction `num / den` with `den` a power of 1024, and
  `f"{x:.2f}"` is modelled by `fmt2` (round half up at two decimals).  On every
  input appearing in the spec the float arithmetic of the source is exact, so
  the models agree there.
* `str.isalnum` / `str.strip` are modelled with `Char.isAlphanum` /
  `Char.isWhitespace` (an ASCII model of the Unicode predicates).
* Raising an exception that the handler does not catch is an `Except` error or a
  dedicated result constructor (`DLResult.valueError` for the uncaught
  `ValueError` of `int(...)`).
-/

namespace YtApi

/-- One rendition descriptor from the extractor's probe output
(a yt_dlp format dict, restricted to the keys `main.py` reads). -/
structure Format where
  format_id : String
  format_note : Option String
  height : Option Int
  vcodec : Option String
  filesize : Option ℤ
  filesize_approx : Option ℤ
  ext : Option String
deriving Repr, DecidableEq

/-- Probe output: the `info` dict, restricted to the keys `main.py` reads. -/
structure Info where
  title : Option String
  formats : List Format
deriving Repr, DecidableEq

/-- Python `a or b` on two optional numbers: `None` and `0` are falsy.
Models `f.get('filesize') or f.get('filesize_approx')`. -/
def pyOrZ : Option ℤ → Option ℤ → Option ℤ
  | none, b => b
  | some x, b => if x = 0 then b else some x

/-- Model of Python `f"{x:.2f}"` on the exact value `num / den` (`den > 0`,
value nonnegative in every reachable call): two-decimal fixed-point rendering,
rounding half up. -/
def fmt2 (num den : ℤ) : String :=
  let n : ℕ := ((200 * num + den) / (2 * den)).toNat
  toString (n / 100) ++ "." ++ (if n % 100 < 10 then "0" else "") ++ toString (n % 100)

/-- The loop body of `format_size`: try units B/KB/MB/GB, dividing the running
value by 1024, and fall through to TB.  The running float is carried exactly as
the fraction `num / den`; a division step multiplies `den` by 1024. -/
def format_size_loop (num : ℤ) : ℤ → List String → String
  | den, [] => fmt2 num den ++ " TB"
  | den, unit :: units =>
    if num < 1024 * den then fmt2 num den ++ " " ++ unit
    else format_size_loop num (den * 1024) units

/-- Embedding of `format_size` (src/app/main.py lines 44-51). -/
def format_size : Option ℤ → String
  | none => "Unknown size"
  | some size => format_size_loop size 1 ["B", "KB", "MB", "GB"]

/-- The character whitelist of `sanitize_filename`: alphanumeric or one of
space, dot, underscore, hyphen. -/
def keepChar (c : Char) : Bool :=
  c.isAlphanum || c = ' ' || c = '.' || c = '_' || c = '-'

/-- Model of Python `str.strip()` on a character list: drop whitespace from
both ends. -/
def pyStripList (l : List Char) : List Char :=
  List.rdropWhile Char.isWhitespace (List.dropWhile Char.isWhitespace l)

/-- Embedding of `sanitize_filename` (src/app/main.py lines 53-54):
keep whitelisted characters, then strip. -/
def sanitize_filename (name : String) : String :=
  String.mk (pyStripList (name.data.filter keepChar))

/-- Accumulator pass of `pythonInt`: all characters must be decimal digits. -/
def digitsToNatAux : List Char → ℕ → Option ℕ
  | [], acc => some acc
  | c :: cs, acc =>
    if c.isDigit then digitsToNatAux cs (acc * 10 + (c.toNat - 48)) else none

/-- Value of a nonempty all-digit character list. -/
def digitsToNat : List Char → Option ℕ
  | [] => none
  | c :: cs => digitsToNatAux (c :: cs) 0

/-- Model of Python `int(s)` (ASCII, no underscore separators): strip
whitespace, optional sign, nonempty digit run; `none` models `ValueError`. -/
def pythonInt (s : String) : Option Int :=
  match pyStripList s.data with
  | '+' :: rest => (digitsToNat rest).map Int.ofNat
  | '-' :: rest => (digitsToNat rest).map fun n => -(n : Int)
  | l => (digitsToNat l).map Int.ofNat

/-- Model of `resolution.replace('p', '')`: delete every lowercase p. -/
def removeP (s : String) : String :=
  String.mk (s.data.filter fun c => c ≠ 'p')

/-- One evaluation of the filter condition of `download_video`
(src/app/main.py lines 82-85), with Python's left-to-right short-circuit:
`f.get('vcodec') != 'none' and (f.get('format_note') == resolution or
f.get('height') == int(resolution.replace('p', '')))`.
`.error ()` models the `ValueError` raised by `int(...)`. -/
def condEval (resolution : String) (f : Format) : Except Unit Bool :=
  if f.vcodec = some "none" then .ok false
  else if f.format_note = some resolution then .ok true
  else
    match pythonInt (removeP resolution) with
    | none => .error ()
    | some n => .ok (f.height = some n)

/-- The list comprehension of `download_video`: evaluate the condition on every
format, in order, propagating the first `ValueError`. -/
def filterFormats (resolution : String) : List Format → Except Unit (List Format)
  | [] => .ok []
  | f :: fs =>
    match condEval resolution f with
    | .error e => .error e
    | .ok b =>
      match filterFormats resolution fs with
      | .error e => .error e
      | .ok rest => .ok (if b then f :: rest else rest)

/-- The format selector of `POST /download`: the head of the filtered list
(`filtered[0]`), `none` when the filtered list is empty. -/
def select_format (resolution : String) (formats : List Format) :
    Except Unit (Option Format) :=
  (filterFormats resolution formats).map List.head?

/-- The pure filter condition, defined only when the resolution parse
succeeded with value `n` (used to state what `filterFormats` computes). -/
def pureCond (resolution : String) (n : Int) (f : Format) : Bool :=
  decide (f.vcodec ≠ some "none") &&
    (decide (f.format_note = some resolution) || decide (f.height = some n))

/-- Model of `os.path.join` for the two-argument uses in `main.py`
(the second argument is never absolute there). -/
def pathJoin (a b : String) : String := a ++ "/" ++ b

/-- The three option keys of `ydl_opts` that carry the download request
(logger/quiet/no_warnings/ignoreerrors are presentation-only and omitted). -/
structure YdlInvocation where
  format : String
  outtmpl : String
  merge_output_format : String
deriving Repr, DecidableEq

/-- Observable outcome of `POST /download` (src/app/main.py lines 74-114). -/
inductive DLResult where
  /-- `get_video_info` raised `HTTPException(400, ...)`, uncaught in the handler. -/
  | fetchError (detail : String)
  /-- the `int(...)` in the filter raised `ValueError`, uncaught: not one of the
  documented 400/404/500 responses. -/
  | valueError
  /-- `HTTPException(404, "No matching format found")`. -/
  | noMatchingFormat
  /-- `JSONResponse {status: exists, ...}` with HTTP 200. -/
  | alreadyExists
  /-- the extractor's download capability was invoked with `inv`, then the file
  response was returned. -/
  | fileResponse (inv : YdlInvocation) (path media_type filename : String)
  /-- the extractor's download capability was invoked with `inv` and raised;
  `HTTPException(500, ...)`. -/
  | downloadFailed (inv : YdlInvocation)
deriving Repr, DecidableEq

/-- The download invocation (if any) made on the way to a `DLResult`. -/
def invocationOf : DLResult → Option YdlInvocation
  | .fileResponse inv _ _ _ => some inv
  | .downloadFailed inv => some inv
  | _ => none

/-- The tail of `download_video` once a rendition has been selected
(src/app/main.py lines 92-114): sanitize the title, short-circuit on an
existing file, otherwise build `ydl_opts` and run the download. -/
def download_selected (download_path : String) (info : Info)
    (file_exists : String → Bool) (download_ok : Bool) (selected : Format) :
    DLResult :=
  let title := sanitize_filename (info.title.getD "video")
  if ["mp4", "mkv", "webm"].any
      (fun ext => file_exists (pathJoin download_path (title ++ "." ++ ext))) then
    .alreadyExists
  else
    let inv : YdlInvocation :=
      { format := selected.format_id ++ "+bestaudio/best"
        outtmpl := pathJoin download_path "%(title)s.%(ext)s"
        merge_output_format := "mp4" }
    if download_ok then
      .fileResponse inv (pathJoin download_path (title ++ ".mp4")) "video/mp4"
        (title ++ ".mp4")
    else .downloadFailed inv

/-- Dispatch on the outcome of the filter comprehension of `download_video`
(src/app/main.py lines 82-90): an uncaught `ValueError`, the 404 on an empty
filtered list, or selection of `filtered[0]`. -/
def selectStep (download_path : String) (info : Info)
    (file_exists : String → Bool) (download_ok : Bool) :
    Except Unit (List Format) → DLResult
  | .error _ => .valueError
  | .ok [] => .noMatchingFormat
  | .ok (selected :: _) =>
    download_selected download_path info file_exists download_ok selected

/-- Embedding of the `POST /download` handler `download_video`
(src/app/main.py lines 74-114).
`download_path` is the result of `create_download_path()`;
`probe` is the outcome of `ydl.extract_info`;
`file_exists` is `os.path.exists`;
`download_ok` is whether `ydl.download` returns without raising. -/
def download_video (download_path : String) (probe : Except String Info)
    (resolution : String) (file_exists : String → Bool) (download_ok : Bool) :
    DLResult :=
  match probe with
  | .error e => .fetchError ("Failed to fetch video info: " ++ e)
  | .ok info =>
    selectStep download_path info file_exists download_ok
      (filterFormats resolution info.formats)

/-- One row of the `available_formats` list built by `get_formats`. -/
structure FormatEntry where
  format_id : String
  resolution : Option String
  filesize : String
  ext : Option String
deriving Repr, DecidableEq

/-- The `resolution` field of a row: `f.get('format_note') or f.get('height')`
(Python `or`: `None` and empty string and `0` are falsy), then an integer is
rendered as `"<height>p"`. -/
def entryResolution (f : Format) : Option String :=
  match f.format_note with
  | some s => if s = "" then f.height.map (fun h => toString h ++ "p") else some s
  | none => f.height.map (fun h => toString h ++ "p")

/-- The row built for one format inside the loop of `get_formats`. -/
def mkEntry (f : Format) : FormatEntry :=
  { format_id := f.format_id
    resolution := entryResolution f
    filesize := format_size (pyOrZ f.filesize f.filesize_approx)
    ext := f.ext }

/-- The loop of `get_formats`: append a row for every format whose `vcodec`
value is not the string `"none"`. -/
def buildEntries (formats : List Format) : List FormatEntry :=
  formats.filterMap fun f =>
    if f.vcodec = some "none" then none else some (mkEntry f)

/-- Observable outcome of `GET /info`. -/
inductive InfoResult where
  | ok (title : Option String) (available_formats : List FormatEntry)
  | httpError (status_code : ℕ) (detail : String)
deriving Repr, DecidableEq

/-- The `try` body of `get_formats` (src/app/main.py lines 124-156), before the
blanket `except`.  Mirrors the source statement by statement: fetch info
(`get_video_info` raises `HTTPException(400, ...)` on a probe failure), raise
404 when `formats` is empty, initialize `filtered_formats = []`, raise 404 when
`filtered_formats` is empty (it always is at this point), then — unreachably —
populate the list and return it. -/
def get_formats_try (probe : Except String Info) :
    Except (ℕ × String) (Option String × List FormatEntry) :=
  match probe with
  | .error e => .error (400, "Failed to fetch video info: " ++ e)
  | .ok info =>
    if info.formats = [] then .error (404, "No valid video formats found.")
    else
      let filtered_formats : List FormatEntry := []
      if filtered_formats.isEmpty then .error (404, "No valid video formats found.")
      else .ok (info.title, buildEntries info.formats)

/-- Embedding of the `GET /info` handler `get_formats`
(src/app/main.py lines 117-160): the whole body sits in `try ... except
Exception`, and the `except` turns every exception — the handler's own
`HTTPException(404)` and `HTTPException(400)` included, since `HTTPException`
subclasses `Exception` — into `HTTPException(500, ...)`. -/
def get_formats (probe : Except String Info) : InfoResult :=
  match get_formats_try probe with
  | .ok (t, fs) => .ok t fs
  | .error (_, d) => .httpError 500 ("Failed to fetch video info: " ++ d)

/-- Example rendition whose `vcodec` key is absent and whose label is 720p. -/
def fmtNoCodec : Format :=
  { format_id := "a", format_note := some "720p", height := none, vcodec := none,
    filesize := none, filesize_approx := none, ext := some "mp4" }

/-- Example rendition with a present codec, label 720p and height 720. -/
def fmtGood : Format :=
  { format_id := "b", format_note := some "720p", height := some 720,
    vcodec := some "avc1", filesize := some 1572864, filesize_approx := none,
    ext := some "mp4" }

/-- Example rendition with a present codec and no label: its condition reaches
the resolution parse for any request that is not its label. -/
def fmtPlain : Format :=
  { format_id := "c", format_note := none, height := some 480,
    vcodec := some "avc1", filesize := none, filesize_approx := none,
    ext := some "webm" }

/-- Example probe result whose title needs sanitization, with one 720p format. -/
def infoColon : Info := { title := some "My: Video", formats := [fmtGood] }

/-- Example probe result with a title and an empty format list. -/
def infoEmpty : Info := { title := some "vid", formats := [] }

/-- When the resolution parse succeeds, the effectful comprehension is the pure
filter by `pureCond`. -/
theorem filterFormats_of_parse {res : String} {n : Int}
    (hp : pythonInt (removeP res) = some n) (fs : List Format) :
    filterFormats res fs = Except.ok (fs.filter (pureCond res n)) := by
  induction fs with
  | nil => rfl
  | cons f fs ih =>
    by_cases h1 : f.vcodec = some "none"
    · simp [filterFormats, condEval, h1, ih, List.filter_cons, pureCond]
    · by_cases h2 : f.format_note = some res
      · simp [filterFormats, condEval, h1, h2, ih, List.filter_cons, pureCond]
      · simp [filterFormats, condEval, h1, h2, hp, ih, List.filter_cons, pureCond]

/-- A condition that evaluated to true passed the vcodec guard. -/
theorem condEval_ok_true {res : String} {f : Format}
    (h : condEval res f = Except.ok true) : f.vcodec ≠ some "none" := by
  intro hv
  rw [condEval, if_pos hv] at h
  simp at h

/-- Every format kept by the comprehension comes from the source list and
passed the vcodec guard. -/
theorem filterFormats_sound {res : String} {fs l : List Format}
    (h : filterFormats res fs = Except.ok l) :
    ∀ f ∈ l, f ∈ fs ∧ f.vcodec ≠ some "none" := by
  induction fs generalizing l with
  | nil =>
    rw [filterFormats] at h
    cases h
    intro f hf
    cases hf
  | cons g fs ih =>
    rw [filterFormats] at h
    cases hc : condEval res g with
    | error e => rw [hc] at h; cases h
    | ok b =>
      rw [hc] at h
      cases hr : filterFormats res fs with
      | error e => rw [hr] at h; cases h
      | ok rest =>
        rw [hr] at h
        cases b with
        | false =>
          have h2 : Except.ok (ε := Unit) rest = Except.ok l := h
          cases h2
          intro f hf
          obtain ⟨hmem, hv⟩ := ih hr f hf
          exact ⟨List.mem_cons_of_mem g hmem, hv⟩
        | true =>
          have h2 : Except.ok (ε := Unit) (g :: rest) = Except.ok l := h
          cases h2
          intro f hf
          rcases List.mem_cons.mp hf with rfl | hftail
          · exact ⟨List.mem_cons_self f fs, condEval_ok_true hc⟩
          · obtain ⟨hmem, hv⟩ := ih hr f hftail
            exact ⟨List.mem_cons_of_mem g hmem, hv⟩

/-- When the resolution parse fails and some format's condition reaches the
parse (vcodec guard passed, label differs), the comprehension raises. -/
theorem filterFormats_raises {res : String}
    (hp : pythonInt (removeP res) = none) :
    ∀ fs : List Format,
      (∃ f ∈ fs, f.vcodec ≠ some "none" ∧ f.format_note ≠ some res) →
        filterFormats res fs = Except.error () := by
  intro fs
  induction fs with
  | nil => rintro ⟨f, hf, _⟩; cases hf
  | cons g fs ih =>
    rintro ⟨f, hf, hv, hn⟩
    by_cases h1 : g.vcodec = some "none"
    · have hftail : f ∈ fs := by
        rcases List.mem_cons.mp hf with rfl | hftail
        · exact absurd h1 hv
        · exact hftail
      have := ih ⟨f, hftail, hv, hn⟩
      simp [filterFormats, condEval, h1, this]
    · by_cases h2 : g.format_note = some res
      · have hftail : f ∈ fs := by
          rcases List.mem_cons.mp hf with rfl | hftail
          · exact absurd h2 hn
          · exact hftail
        have := ih ⟨f, hftail, hv, hn⟩
        simp [filterFormats, condEval, h1, h2, this]
      · simp [filterFormats, condEval, h1, h2, hp]

/-- A list splits as its right-trimmed part followed by trimmed elements. -/
theorem rdropWhile_decomp {α : Type} (p : α → Bool) (a : List α) :
    ∃ post, a = List.rdropWhile p a ++ post ∧ ∀ c ∈ post, p c = true := by
  obtain ⟨t, ht⟩ := List.dropWhile_suffix (l := a.reverse) p
  have hta : t = List.takeWhile p a.reverse :=
    List.append_cancel_right
      (ht.trans (List.takeWhile_append_dropWhile p a.reverse).symm)
  refine ⟨t.reverse, ?_, ?_⟩
  · conv_lhs => rw [← List.reverse_reverse a, ← ht]
    simp [List.rdropWhile]
  · intro c hc
    rw [List.mem_reverse, hta] at hc
    exact List.mem_takeWhile_imp hc

/-- Stripping only removes elements: membership is preserved into the source. -/
theorem mem_pyStripList {c : Char} {l : List Char} (h : c ∈ pyStripList l) :
    c ∈ l := by
  rw [pyStripList, List.rdropWhile] at h
  rw [List.mem_reverse] at h
  have h2 := (List.dropWhile_sublist Char.isWhitespace).mem h
  rw [List.mem_reverse] at h2
  exact (List.dropWhile_sublist Char.isWhitespace).mem h2

/-- A list splits as leading whitespace, its stripped core, and trailing
whitespace. -/
theorem pyStripList_decomp (l : List Char) :
    ∃ pre post, l = pre ++ pyStripList l ++ post ∧
      (∀ c ∈ pre, c.isWhitespace = true) ∧ ∀ c ∈ post, c.isWhitespace = true := by
  obtain ⟨post, hpost, hpostw⟩ :=
    rdropWhile_decomp Char.isWhitespace (List.dropWhile Char.isWhitespace l)
  refine ⟨List.takeWhile Char.isWhitespace l, post, ?_, ?_, hpostw⟩
  · show l = List.takeWhile Char.isWhitespace l
        ++ List.rdropWhile Char.isWhitespace (List.dropWhile Char.isWhitespace l) ++ post
    rw [List.append_assoc, ← hpost, List.takeWhile_append_dropWhile]
  · intro c hc
    exact List.mem_takeWhile_imp hc

/-- A left-trimmed list stays left-trimmed on any of its front parts. -/
theorem dropWhile_eq_self_of_append {α : Type} (p : α → Bool) (x post l : List α)
    (hsplit : l = x ++ post) (hl : List.dropWhile p l = l) :
    List.dropWhile p x = x := by
  cases x with
  | nil => rfl
  | cons c cs =>
    have hpc : p c = false := by
      cases hc2 : p c
      · rfl
      · exfalso
        rw [hsplit, List.cons_append, List.dropWhile_cons, if_pos hc2] at hl
        have hle := (List.dropWhile_sublist (l := cs ++ post) p).length_le
        rw [hl] at hle
        simp at hle
    rw [List.dropWhile_cons, if_neg (by simp [hpc])]

/-- Stripping is idempotent. -/
theorem pyStripList_idem (l : List Char) :
    pyStripList (pyStripList l) = pyStripList l := by
  obtain ⟨post, hpost, _⟩ :=
    rdropWhile_decomp Char.isWhitespace (List.dropWhile Char.isWhitespace l)
  have hcore : List.dropWhile Char.isWhitespace (pyStripList l) = pyStripList l :=
    dropWhile_eq_self_of_append Char.isWhitespace _ post _ hpost
      (List.dropWhile_idempotent Char.isWhitespace l)
  show List.rdropWhile Char.isWhitespace (List.dropWhile Char.isWhitespace (pyStripList l))
      = pyStripList l
  rw [hcore]
  exact List.rdropWhile_idempotent Char.isWhitespace (List.dropWhile Char.isWhitespace l)

/-- The `try` body of `get_formats` raises on every input: either the probe
failure, or one of the two 404 branches (the second guards a list that is
still empty at that point). -/
theorem get_formats_try_error (probe : Except String Info) :
    ∃ c d, get_formats_try probe = Except.error (c, d) := by
  cases probe with
  | error e => exact ⟨400, _, rfl⟩
  | ok info =>
    obtain ⟨t, fs⟩ := info
    cases fs with
    | nil => exact ⟨404, _, rfl⟩
    | cons f fs => exact ⟨404, _, rfl⟩

/-- C7: `format_size` renders 500, 2048 and 1572864 bytes as "500.00 B",
"2.00 KB" and "1.50 MB", and an absent size as "Unknown size". -/
theorem C7_format_size_values :
    format_size (some 500) = "500.00 B" ∧ format_size (some 2048) = "2.00 KB" ∧
      format_size (some 1572864) = "1.50 MB" ∧ format_size none = "Unknown size" :=
  ⟨rfl, rfl, rfl, rfl⟩

/-- C8: `sanitize_filename` keeps exactly the characters that are alphanumeric
or space, dot, underscore, hyphen, in source order, and trims leading and
trailing whitespace; on "My Video: Part #1.mp4" it yields
"My Video Part 1.mp4". -/
theorem C8_sanitize_keeps_whitelist :
    sanitize_filename "My Video: Part #1.mp4" = "My Video Part 1.mp4" ∧
    ∀ s : String,
      (∀ c ∈ (sanitize_filename s).data, keepChar c = true) ∧
      ∃ pre post, s.data.filter keepChar = pre ++ (sanitize_filename s).data ++ post ∧
        (∀ c ∈ pre, c.isWhitespace = true) ∧ ∀ c ∈ post, c.isWhitespace = true := by
  refine ⟨rfl, fun s => ⟨?_, ?_⟩⟩
  · intro c hc
    exact List.of_mem_filter (mem_pyStripList hc)
  · obtain ⟨pre, post, hsplit, hpre, hpost⟩ :=
      pyStripList_decomp (s.data.filter keepChar)
    exact ⟨pre, post, hsplit, hpre, hpost⟩

/-- Witness for C8: the concrete membership of 'M' in the sanitized output. -/
theorem C8_sanitize_keeps_whitelist_witness : keepChar 'M' = true :=
  (C8_sanitize_keeps_whitelist.2 "My Video: Part #1.mp4").1 'M' (by decide)

/-- C9: `sanitize_filename` is idempotent. -/
theorem C9_sanitize_idempotent (s : String) :
    sanitize_filename (sanitize_filename s) = sanitize_filename s := by
  have hall : ∀ c ∈ pyStripList (s.data.filter keepChar), keepChar c = true :=
    fun c hc => List.of_mem_filter (mem_pyStripList hc)
  show String.mk
      (pyStripList ((String.mk (pyStripList (s.data.filter keepChar))).data.filter keepChar))
      = String.mk (pyStripList (s.data.filter keepChar))
  have hdata : (String.mk (pyStripList (s.data.filter keepChar))).data
      = pyStripList (s.data.filter keepChar) := rfl
  rw [hdata, List.filter_eq_self.mpr hall, pyStripList_idem]

/-- Witness for C9 at a concrete string. -/
theorem C9_sanitize_idempotent_witness :
    sanitize_filename (sanitize_filename " a#b ") = sanitize_filename " a#b " :=
  C9_sanitize_idempotent " a#b "

/-- C1 (code bug): `GET /info` never returns the documented
`{title, available_formats}` object; for every probe outcome it answers
HTTP 500, because the pre-check of the still-empty `filtered_formats` raises
404 and the blanket `except` re-raises every exception — its own
`HTTPException`s included — as 500. -/
theorem C1_info_never_returns_listing :
    (∀ probe : Except String Info,
        ∃ d, get_formats probe = InfoResult.httpError 500 d) ∧
      get_formats (Except.ok infoColon)
        = InfoResult.httpError 500
            "Failed to fetch video info: No valid video formats found." := by
  refine ⟨?_, rfl⟩
  intro probe
  obtain ⟨c, d, h⟩ := get_formats_try_error probe
  refine ⟨"Failed to fetch video info: " ++ d, ?_⟩
  rw [get_formats, h]

/-- Witness for C1 at a concrete failing probe. -/
theorem C1_info_never_returns_listing_witness :
    ∃ d, get_formats (Except.error "boom") = InfoResult.httpError 500 d :=
  C1_info_never_returns_listing.1 (Except.error "boom")

/-- C4 (code bug): on a probe that succeeds with an empty format list,
`GET /info` answers 500, not the documented 404: the 404 raised inside the
`try` is caught by the blanket `except` and re-raised as 500. -/
theorem C4_info_empty_list_500 :
    get_formats (Except.ok infoEmpty)
        = InfoResult.httpError 500
            "Failed to fetch video info: No valid video formats found." ∧
      decide (InfoResult.httpError 500
            "Failed to fetch video info: No valid video formats found."
          = InfoResult.httpError 404 "No valid video formats found.") = false :=
  ⟨rfl, by decide⟩

/-- C2 counterexample: with renditions [fmtNoCodec, fmtGood] and request
"720p", the code selects fmtNoCodec — whose vcodec key is absent — although
fmtGood is the first rendition whose video codec is present and matching. -/
theorem C2_counterexample :
    select_format "720p" [fmtNoCodec, fmtGood] = Except.ok (some fmtNoCodec) ∧
      fmtNoCodec.vcodec = none ∧ fmtGood.vcodec = some "avc1" ∧
      fmtGood.format_note = some "720p" ∧ decide (fmtNoCodec = fmtGood) = false :=
  ⟨rfl, rfl, rfl, rfl, by decide⟩

/-- C2 (amended): when the resolution parses to n, the selector of
`POST /download` returns the first rendition, in source order, satisfying
`pureCond` — vcodec value not "none" (an absent field also passes) and label
equal to the request or height equal to n — and the handler answers the 404
`noMatchingFormat` when no rendition satisfies it. -/
theorem C2_selector_first_match (dp : String) (info : Info) (res : String)
    (n : Int) (fe : String → Bool) (dok : Bool)
    (hp : pythonInt (removeP res) = some n) :
    select_format res info.formats
        = Except.ok (info.formats.filter (pureCond res n)).head? ∧
      (info.formats.filter (pureCond res n) = [] →
        download_video dp (Except.ok info) res fe dok = DLResult.noMatchingFormat) := by
  constructor
  · rw [select_format, filterFormats_of_parse hp]
    rfl
  · intro h
    have h2 := filterFormats_of_parse hp info.formats
    rw [h] at h2
    show selectStep dp info fe dok (filterFormats res info.formats)
        = DLResult.noMatchingFormat
    rw [h2]
    rfl

/-- Witness for C2 (amended) at infoColon and request "720p". -/
theorem C2_selector_first_match_witness :
    select_format "720p" infoColon.formats
        = Except.ok (infoColon.formats.filter (pureCond "720p" 720)).head? :=
  (C2_selector_first_match "downloads" infoColon "720p" 720 (fun _ => false) true rfl).1

/-- C3 counterexample: every candidate output file exists, but the request's
resolution matches no rendition, so the handler answers the 404
`noMatchingFormat` rather than the `{status: exists}` response. -/
theorem C3_counterexample :
    download_video "downloads" (Except.ok infoEmpty) "720p" (fun _ => true) true
        = DLResult.noMatchingFormat ∧
      decide (DLResult.noMatchingFormat = DLResult.alreadyExists) = false :=
  ⟨rfl, by decide⟩

/-- C3 (amended): when the probe succeeds, a rendition is selected, and one of
`<title>.{mp4,mkv,webm}` exists, the handler returns the exists response and
makes no download invocation. -/
theorem C3_exists_short_circuit (dp : String) (info : Info) (res : String)
    (fe : String → Bool) (dok : Bool) (sel : Format) (rest : List Format)
    (hsel : filterFormats res info.formats = Except.ok (sel :: rest))
    (hex : (["mp4", "mkv", "webm"].any fun ext =>
        fe (pathJoin dp (sanitize_filename (info.title.getD "video") ++ "." ++ ext)))
      = true) :
    download_video dp (Except.ok info) res fe dok = DLResult.alreadyExists ∧
      invocationOf (download_video dp (Except.ok info) res fe dok) = none := by
  have h : download_video dp (Except.ok info) res fe dok = DLResult.alreadyExists := by
    show selectStep dp info fe dok (filterFormats res info.formats)
        = DLResult.alreadyExists
    rw [hsel]
    show download_selected dp info fe dok sel = DLResult.alreadyExists
    simp [download_selected, hex]
  exact ⟨h, by rw [h]; rfl⟩

/-- Witness for C3 (amended): with infoColon and every file present, the
handler answers the exists response. -/
theorem C3_exists_short_circuit_witness :
    download_video "downloads" (Except.ok infoColon) "720p" (fun _ => true) true
        = DLResult.alreadyExists :=
  (C3_exists_short_circuit "downloads" infoColon "720p" (fun _ => true) true
    fmtGood [] rfl rfl).1

/-- C5 counterexample: a download-reaching request whose title is "My: Video"
(sanitized "My Video") invokes the extractor with output template
"downloads/%(title)s.%(ext)s" — the extractor's own placeholder — and not with
the sanitized-title template "downloads/My Video.%(ext)s" the claim names. -/
theorem C5_counterexample :
    download_video "downloads" (Except.ok infoColon) "720p" (fun _ => false) true
        = DLResult.fileResponse
            { format := "b+bestaudio/best"
              outtmpl := "downloads/%(title)s.%(ext)s"
              merge_output_format := "mp4" }
            "downloads/My Video.mp4" "video/mp4" "My Video.mp4" ∧
      decide ("downloads/%(title)s.%(ext)s" = "downloads/My Video.%(ext)s") = false :=
  ⟨rfl, by decide⟩

/-- C5 (amended): every download-reaching request invokes the extractor with
format spec `<format_id>+bestaudio/best`, merge output format mp4, and the
placeholder output template `<download_dir>/%(title)s.%(ext)s` (the sanitized
title does not appear in the template); the handler then returns the file at
`<download_dir>/<sanitized title>.mp4` as a video/mp4 response. -/
theorem C5_download_invocation (dp : String) (info : Info) (res : String)
    (fe : String → Bool) (sel : Format) (rest : List Format)
    (hsel : filterFormats res info.formats = Except.ok (sel :: rest))
    (hex : (["mp4", "mkv", "webm"].any fun ext =>
        fe (pathJoin dp (sanitize_filename (info.title.getD "video") ++ "." ++ ext)))
      = false) :
    download_video dp (Except.ok info) res fe true
        = DLResult.fileResponse
            { format := sel.format_id ++ "+bestaudio/best"
              outtmpl := pathJoin dp "%(title)s.%(ext)s"
              merge_output_format := "mp4" }
            (pathJoin dp (sanitize_filename (info.title.getD "video") ++ ".mp4"))
            "video/mp4" (sanitize_filename (info.title.getD "video") ++ ".mp4") := by
  show selectStep dp info fe true (filterFormats res info.formats) = _
  rw [hsel]
  show download_selected dp info fe true sel = _
  simp [download_selected, hex]

/-- Witness for C5 (amended) at infoColon with no pre-existing file. -/
theorem C5_download_invocation_witness :
    download_video "downloads" (Except.ok infoColon) "720p" (fun _ => false) true
        = DLResult.fileResponse
            { format := fmtGood.format_id ++ "+bestaudio/best"
              outtmpl := pathJoin "downloads" "%(title)s.%(ext)s"
              merge_output_format := "mp4" }
            (pathJoin "downloads" (sanitize_filename (infoColon.title.getD "video") ++ ".mp4"))
            "video/mp4" (sanitize_filename (infoColon.title.getD "video") ++ ".mp4") :=
  C5_download_invocation "downloads" infoColon "720p" (fun _ => false) fmtGood [] rfl rfl

/-- C6 counterexample: a rendition whose vcodec key is absent is selected by
the format selector. -/
theorem C6_counterexample :
    select_format "720p" [fmtNoCodec] = Except.ok (some fmtNoCodec) ∧
      fmtNoCodec.vcodec = none :=
  ⟨rfl, rfl⟩

/-- C6 (amended): a selected rendition always comes from the probed list and
its vcodec value is never the string "none" (an absent field, however, also
passes the guard), and the `/info` row builder keeps exactly the formats whose
vcodec value is not "none". -/
theorem C6_selected_vcodec_guard :
    (∀ (res : String) (fs : List Format) (f : Format),
        select_format res fs = Except.ok (some f) →
          f ∈ fs ∧ decide (f.vcodec = some "none") = false) ∧
      ∀ fs : List Format,
        buildEntries fs
          = (fs.filter fun f => decide (f.vcodec ≠ some "none")).map mkEntry := by
  constructor
  · intro res fs f h
    rw [select_format] at h
    cases hr : filterFormats res fs with
    | error e => rw [hr] at h; cases h
    | ok l =>
      rw [hr] at h
      have h2 : Except.ok (ε := Unit) l.head? = Except.ok (some f) := h
      have h3 : l.head? = some f := by injection h2
      have hf : f ∈ l := by
        cases l with
        | nil => cases h3
        | cons a t =>
          have h4 : a = f := by injection h3
          rw [← h4]
          exact List.mem_cons_self a t
      obtain ⟨hmem, hv⟩ := filterFormats_sound hr f hf
      exact ⟨hmem, decide_eq_false hv⟩
  · intro fs
    induction fs with
    | nil => rfl
    | cons f fs ih =>
      by_cases h : f.vcodec = some "none"
      · have hb : buildEntries (f :: fs) = buildEntries fs := by
          simp [buildEntries, List.filterMap_cons, h]
        have hf : List.filter (fun f => decide (f.vcodec ≠ some "none")) (f :: fs)
            = List.filter (fun f => decide (f.vcodec ≠ some "none")) fs := by
          simp [List.filter_cons, h]
        rw [hb, hf, ih]
      · have hb : buildEntries (f :: fs) = mkEntry f :: buildEntries fs := by
          simp [buildEntries, List.filterMap_cons, h]
        have hf : List.filter (fun f => decide (f.vcodec ≠ some "none")) (f :: fs)
            = f :: List.filter (fun f => decide (f.vcodec ≠ some "none")) fs := by
          simp [List.filter_cons, h]
        rw [hb, hf, List.map_cons, ih]

/-- Witness for C6 (amended): the selection of fmtGood from its singleton
list. -/
theorem C6_selected_vcodec_guard_witness :
    fmtGood ∈ [fmtGood] ∧ decide (fmtGood.vcodec = some "none") = false :=
  C6_selected_vcodec_guard.1 "720p" [fmtGood] fmtGood rfl

/-- C10: the resolution parse `int(resolution.replace('p', ''))` is total on
the filter exactly when the p-stripped string parses; when it does not and
some format's condition reaches the parse, `POST /download` ends in the
uncaught `ValueError` — not one of the documented responses; "abc" and ""
fail to parse while "720" and "720p" parse to 720. -/
theorem C10_resolution_parse_partial :
    (∀ (res : String) (n : Int), pythonInt (removeP res) = some n →
        ∀ fs : List Format, ∃ l, filterFormats res fs = Except.ok l) ∧
      (∀ res : String, pythonInt (removeP res) = none →
        ∀ (dp : String) (t : Option String) (fs : List Format)
          (fe : String → Bool) (dok : Bool),
          (∃ f ∈ fs, f.vcodec ≠ some "none" ∧ f.format_note ≠ some res) →
            download_video dp (Except.ok ⟨t, fs⟩) res fe dok
              = DLResult.valueError) ∧
      pythonInt (removeP "abc") = none ∧ pythonInt (removeP "") = none ∧
      pythonInt (removeP "720") = some 720 ∧ pythonInt (removeP "720p") = some 720 := by
  refine ⟨?_, ?_, rfl, rfl, rfl, rfl⟩
  · intro res n hp fs
    exact ⟨_, filterFormats_of_parse hp fs⟩
  · intro res hp dp t fs fe dok hex
    have h2 := filterFormats_raises hp fs hex
    show selectStep dp ⟨t, fs⟩ fe dok (filterFormats res (Info.mk t fs).formats)
        = DLResult.valueError
    rw [show (Info.mk t fs).formats = fs from rfl, h2]
    rfl

/-- Witness for C10: request "abc" against a list whose condition reaches the
parse ends in the uncaught ValueError. -/
theorem C10_resolution_parse_partial_witness :
    download_video "downloads" (Except.ok ⟨some "v", [fmtPlain]⟩) "abc"
        (fun _ => false) true = DLResult.valueError :=
  C10_resolution_parse_partial.2.1 "abc" rfl "downloads" (some "v") [fmtPlain]
    (fun _ => false) true ⟨fmtPlain, by decide, by decide, by decide⟩

end YtApi
